import Mathlib

/-!
Verification of the state-synchronization core of the Toshiba Estia control
library, shallowly embedded from the Python sources:

* `toshiba_estia/device/fcu_state.py` — `ToshibaAcFcuState` with `merge`,
  `decode`, `encode`, `update` and the enum raw-value converters,
* `toshiba_estia/device/__init__.py` — `ToshibaAcDevice` push handlers,
* `toshiba_estia/device_manager.py` — `ToshibaAcDeviceManager` lifecycle.

Hex strings are embedded as `List Char`; byte sequences as `List Nat` with
values below 256.  Python dict lookups that can raise `KeyError`, and calls
that can raise, are embedded as `Option`-returning functions where `none`
marks the raised exception.
-/

/-- `ToshibaAcStatus` from `toshiba_estia/device/properties.py`. -/
inductive ToshibaAcStatus where
  | ON
  | OFF
  | NONE
deriving DecidableEq, Fintype

/-- `ToshibaAcMode` from `toshiba_estia/device/properties.py`. -/
inductive ToshibaAcMode where
  | AUTO
  | COOL
  | HEAT
  | NONE
deriving DecidableEq, Fintype

/-- `EstiaWaterMode` from `toshiba_estia/device/properties.py`. -/
inductive EstiaWaterMode where
  | AUTO
  | COOL
  | HEAT
  | NONE
deriving DecidableEq, Fintype

/-- `EstiaCompressorStatus` from `toshiba_estia/device/properties.py`. -/
inductive EstiaCompressorStatus where
  | OFF
  | DHW
  | HEAT
  | NONE
deriving DecidableEq, Fintype

/-- Value of one hex digit character, as accepted by Python's
`bytes.fromhex`; `none` for a non-hex character. -/
def hexDigit? (c : Char) : Option Nat :=
  if '0' ≤ c ∧ c ≤ '9' then some (c.toNat - 48)
  else if 'a' ≤ c ∧ c ≤ 'f' then some (c.toNat - 87)
  else if 'A' ≤ c ∧ c ≤ 'F' then some (c.toNat - 55)
  else none

/-- `bytes.fromhex`: pairs of hex digits to byte values; fails on a
non-hex character or an odd number of digits (whitespace, which `fromhex`
would skip, does not occur in the blobs this library handles). -/
def hexPairs? : List Char → Option (List Nat)
  | [] => some []
  | [_] => none
  | c1 :: c2 :: rest =>
    match hexDigit? c1, hexDigit? c2, hexPairs? rest with
    | some d1, some d2, some bs => some ((d1 * 16 + d2) :: bs)
    | _, _, _ => none

/-- Lowercase hex digit character for a value below 16, as produced by a
canonical hex rendering of a byte. -/
def hexDigitChar (d : Nat) : Char :=
  if d < 10 then Char.ofNat (48 + d) else Char.ofNat (87 + d)

/-- Canonical lowercase two-character hex rendering of one byte. -/
def hexOfByte (v : Nat) : List Char := [hexDigitChar (v / 16), hexDigitChar (v % 16)]

/-- Canonical lowercase hex rendering of a byte sequence: the textual form
of a blob (36 bytes become 72 hex characters). -/
def hexOfBytes (l : List Nat) : List Char := l.flatMap hexOfByte

/-- `ToshibaAcFcuState` instance fields, exactly the attributes set in
`__init__` and `decode` of `toshiba_estia/device/fcu_state.py`.
`_ac_outdoor_temperature` is only ever assigned inside `decode` (byte 11);
it is carried here with the neutral default 0 so the record is total. -/
structure ToshibaAcFcuState where
  _ac_status : Nat := 0xFF
  _ac_mode : Nat := 0xFF
  _ac_temperature : Int := -1
  _status_string : List Char := []
  _dhw_is_enabled : Nat := 0
  _dhw_target_temperature : Nat := 0
  _new_outdoor_unit_dhw : Nat := 0
  _new_heating_coil_dhw : Nat := 0
  _new_heating_active : Nat := 0
  _water_operation_mode : Nat := 0
  _zone1_target_temperature : Nat := 0
  _outdoor_unit_heat : Nat := 0
  _heating_coil_heat : Nat := 0
  _ac_outdoor_temperature : Nat := 0
  _water_pump_status : Nat := 0
deriving DecidableEq

namespace ToshibaAcFcuState

/-- The state built by `ToshibaAcFcuState.__init__`. -/
def init : ToshibaAcFcuState := {}

/-- `ToshibaAcFcuState.AcStatus.from_raw`: dict lookup keyed on the raw
byte; `none` embeds the `KeyError` raised on a key absent from the dict. -/
def AcStatus.from_raw : Nat → Option ToshibaAcStatus
  | 0x30 => some ToshibaAcStatus.ON
  | 0x31 => some ToshibaAcStatus.OFF
  | 0x02 => some ToshibaAcStatus.NONE
  | 0xFF => some ToshibaAcStatus.NONE
  | _ => none

/-- `ToshibaAcFcuState.AcStatus.to_raw`. -/
def AcStatus.to_raw : ToshibaAcStatus → Nat
  | ToshibaAcStatus.ON => 0x30
  | ToshibaAcStatus.OFF => 0x31
  | ToshibaAcStatus.NONE => 0xFF

/-- `ToshibaAcFcuState.AcMode.from_raw`: dict lookup; `none` embeds the
`KeyError` on an absent key. -/
def AcMode.from_raw : Nat → Option ToshibaAcMode
  | 0x41 => some ToshibaAcMode.AUTO
  | 0x42 => some ToshibaAcMode.COOL
  | 0x43 => some ToshibaAcMode.HEAT
  | 0x00 => some ToshibaAcMode.NONE
  | 0xFF => some ToshibaAcMode.NONE
  | _ => none

/-- `ToshibaAcFcuState.AcMode.to_raw`. -/
def AcMode.to_raw : ToshibaAcMode → Nat
  | ToshibaAcMode.AUTO => 0x41
  | ToshibaAcMode.COOL => 0x42
  | ToshibaAcMode.HEAT => 0x43
  | ToshibaAcMode.NONE => 0xFF

/-- `ToshibaAcFcuState.EstiaWaterMode.from_raw`: dict lookup with keys
0x5, 0x6 and 0x0 only; `none` embeds the `KeyError` on any other raw byte,
including the 0xFF sentinel. -/
def EstiaWaterMode.from_raw : Nat → Option EstiaWaterMode
  | 0x5 => some EstiaWaterMode.COOL
  | 0x6 => some EstiaWaterMode.HEAT
  | 0x0 => some EstiaWaterMode.NONE
  | _ => none

/-- `ToshibaAcFcuState.merge`, on the hex characters.  The Python code
splits both strings into two-character chunks; for each chunk of
`input_string` (the partial update) it keeps the chunk when its lowercase
form is not `"ff"` and otherwise takes the chunk of `state` (the previous
blob) at the same index.  `state`'s chunk at index `i` is accessed only in
the sentinel branch; `none` embeds the `IndexError` raised when that chunk
does not exist.  A trailing lone character of `input_string` is its own
chunk and never equals `"ff"`. -/
def merge : List Char → List Char → Option (List Char)
  | [], _ => some []
  | [c], _ => some [c]
  | c1 :: c2 :: ps, b =>
    if c1.toLower = 'f' ∧ c2.toLower = 'f' then
      match b with
      | [] => none
      | [d] => (merge ps []).map (fun r => d :: r)
      | d1 :: d2 :: bs => (merge ps bs).map (fun r => d1 :: d2 :: r)
    else
      (merge ps (b.drop 2)).map (fun r => c1 :: c2 :: r)

/-- `ToshibaAcFcuState.encode`: the body is `return ""`. -/
def encode (_ : ToshibaAcFcuState) : List Char := []

/-- Result of `ENCODING_STRUCT.unpack(bytes.fromhex(hex_state))`: the 36
byte values, or `none` when `fromhex` or `unpack` raises (non-hex input,
or a byte count different from 36). -/
def unpack36 (hex_state : List Char) : Option (List Nat) :=
  match hexPairs? hex_state with
  | none => none
  | some bs => if bs.length = 36 then some bs else none

/-- Outcome of `ToshibaAcFcuState.decode`: `ok` carries the updated state,
`err` carries the state as left behind when the parse raised (with
`_status_string` already replaced). -/
inductive DecodeResult where
  | ok (s : ToshibaAcFcuState)
  | err (s : ToshibaAcFcuState)
deriving DecidableEq

/-- Whether the decode call returned without raising. -/
def DecodeResult.isOk : DecodeResult → Bool
  | DecodeResult.ok _ => true
  | DecodeResult.err _ => false

/-- The state object after the decode call, in both outcomes. -/
def DecodeResult.state : DecodeResult → ToshibaAcFcuState
  | DecodeResult.ok s => s
  | DecodeResult.err s => s

/-- `ToshibaAcFcuState.decode`: stores `hex_state` into `_status_string`
first, then unpacks 36 bytes and assigns the typed fields at their fixed
offsets (bytes 1-7, 9-11 and 20 of the comment numbering; bytes 8 and
12-19 are read into `_` and dropped, the tail is ignored). -/
def decode (s : ToshibaAcFcuState) (hex_state : List Char) : DecodeResult :=
  let s1 : ToshibaAcFcuState := { s with _status_string := hex_state }
  match unpack36 hex_state with
  | none => DecodeResult.err s1
  | some data =>
    DecodeResult.ok { s1 with
      _dhw_is_enabled := data.getD 0 0
      _dhw_target_temperature := data.getD 1 0
      _new_outdoor_unit_dhw := data.getD 2 0
      _new_heating_coil_dhw := data.getD 3 0
      _new_heating_active := data.getD 4 0
      _water_operation_mode := data.getD 5 0
      _zone1_target_temperature := data.getD 6 0
      _outdoor_unit_heat := data.getD 8 0
      _heating_coil_heat := data.getD 9 0
      _ac_outdoor_temperature := data.getD 10 0
      _water_pump_status := data.getD 19 0 }

/-- Property `ToshibaAcFcuState.ac_status`: raw-to-enum conversion of the
stored raw status byte; `none` embeds the `KeyError` the conversion can
raise. -/
def ac_status (s : ToshibaAcFcuState) : Option ToshibaAcStatus :=
  AcStatus.from_raw s._ac_status

/-- Property `ToshibaAcFcuState.zone1_mode`. -/
def zone1_mode (s : ToshibaAcFcuState) : Option EstiaWaterMode :=
  EstiaWaterMode.from_raw s._water_operation_mode

/-- Property `ToshibaAcFcuState.compressor_status`: Python truthiness of
the two raw flag bytes is their being nonzero. -/
def compressor_status (s : ToshibaAcFcuState) : EstiaCompressorStatus :=
  if s._new_outdoor_unit_dhw ≠ 0 then EstiaCompressorStatus.DHW
  else if s._outdoor_unit_heat ≠ 0 then EstiaCompressorStatus.HEAT
  else EstiaCompressorStatus.OFF

/-- Property `ToshibaAcFcuState.water_pump_is_running`: returns the raw
byte unconverted. -/
def water_pump_is_running (s : ToshibaAcFcuState) : Nat :=
  s._water_pump_status

/-- `ToshibaAcFcuState.update`: merges the diff over the stored
`_status_string` (diff first, previous blob second), decodes the merged
blob into the state and returns `changed = True`.  `none` embeds an
exception escaping from `merge` or `decode`. -/
def update (s : ToshibaAcFcuState) (status_diff : List Char) :
    Option (ToshibaAcFcuState × Bool) :=
  match merge status_diff s._status_string with
  | none => none
  | some state_update =>
    match decode s state_update with
    | DecodeResult.ok s2 => some (s2, true)
    | DecodeResult.err _ => none

end ToshibaAcFcuState

/-- The `temperatures` object fetched from the HTTP API
(`additional_info.temperatures`), with the attributes assigned by
`ToshibaAcDevice.handle_cmd_heartbeat_estia` in
`toshiba_estia/device/__init__.py`. -/
structure Temperatures where
  tfi : Nat
  tho : Nat
  «to» : Nat
  twi : Nat
  two : Nat
deriving DecidableEq

/-- The heartbeat payload fields as consumed by
`handle_cmd_heartbeat_estia`: each field embeds `int(payload[key], 16)`,
with `none` marking the exception raised there (missing key or
unparsable hex string). -/
structure HbPayload where
  tfi_temp : Option Nat
  tho_temp : Option Nat
  to_temp : Option Nat
  twi_temp : Option Nat
  two_temp : Option Nat
  flo : Option Nat
deriving DecidableEq

/-- The slice of `ToshibaAcDevice` touched by the heartbeat handler. -/
structure ToshibaAcDevice where
  temperatures : Temperatures
  _water_flow_rate : Nat
deriving DecidableEq

namespace ToshibaAcDevice

/-- `ToshibaAcDevice.handle_cmd_heartbeat_estia`: one `try` block assigns
the six fields in order TFI, THO, TO, TWI, TWO, FLO; the first failing
conversion raises out of the block, skipping that field and all later
ones, and the `except` clause logs and swallows the exception; the
already-assigned earlier fields keep their new values.  The returned flag
records that `state_changed` is awaited afterwards in every case. -/
def handle_cmd_heartbeat_estia (d : ToshibaAcDevice) (p : HbPayload) :
    ToshibaAcDevice × Bool :=
  let dres :=
    match p.tfi_temp with
    | none => d
    | some v1 =>
      let d := { d with temperatures := { d.temperatures with tfi := v1 } }
      match p.tho_temp with
      | none => d
      | some v2 =>
        let d := { d with temperatures := { d.temperatures with tho := v2 } }
        match p.to_temp with
        | none => d
        | some v3 =>
          let d := { d with temperatures := { d.temperatures with «to» := v3 } }
          match p.twi_temp with
          | none => d
          | some v4 =>
            let d := { d with temperatures := { d.temperatures with twi := v4 } }
            match p.two_temp with
            | none => d
            | some v5 =>
              let d := { d with temperatures := { d.temperatures with two := v5 } }
              match p.flo with
              | none => d
              | some v6 => { d with _water_flow_rate := v6 }
  (dres, true)

/-- `ToshibaAcDevice.handle_update_ac_energy_consumption`, on the cached
`_ac_energy_consumption` (initially `None`): stores the new reading and
fires `on_energy_consumption_changed_callback` exactly when the Python
`!=` comparison between cache and new value is true.  The reading type is
abstract here; the handler only compares it for equality. -/
def handle_update_ac_energy_consumption {E : Type} [DecidableEq E]
    (cache : Option E) (val : E) : Option E × Bool :=
  if cache ≠ some val then (some val, true) else (cache, false)

/-- Folds a list of incoming energy readings through
`handle_update_ac_energy_consumption`, counting the fired
energy-changed notifications. -/
def runEnergyUpdates {E : Type} [DecidableEq E]
    (cache : Option E) : List E → Option E × Nat
  | [] => (cache, 0)
  | v :: vs =>
    let r := handle_update_ac_energy_consumption cache v
    let rest := runEnergyUpdates r.1 vs
    (rest.1, (if r.2 then 1 else 0) + rest.2)

end ToshibaAcDevice

/-- The slice of `ToshibaAcDeviceManager` state that its lifecycle
operations in `toshiba_estia/device_manager.py` read and write.  The two
transport handles and the token are tracked by presence (`True` when the
attribute is non-`None`), the registry by its list of device keys, the
periodic tasks by whether a task handle is stored.  `fetch_count` counts
the `http_api.get_devices()` fleet-listing fetches issued, for stating
the caching claims. -/
structure ToshibaAcDeviceManager where
  http_api : Bool
  amqp_api : Bool
  sas_token : Bool
  devices : List String
  periodic_fetch_energy_consumption_task : Bool
  periodic_fetch_device_connection_task : Bool
  fetch_count : Nat
deriving DecidableEq

namespace ToshibaAcDeviceManager

/-- The manager right after `__init__` (no token supplied). -/
def mgrInit : ToshibaAcDeviceManager :=
  { http_api := false, amqp_api := false, sas_token := false, devices := [],
    periodic_fetch_energy_consumption_task := false,
    periodic_fetch_device_connection_task := false, fetch_count := 0 }

/-- `ToshibaAcDeviceManager.connect`, successful path: under the lock,
each of the HTTP transport, the token and the AMQP transport is created
only if absent, so afterwards all three are present; nothing else is
touched (in particular `devices` is kept). -/
def connect (s : ToshibaAcDeviceManager) : ToshibaAcDeviceManager :=
  { s with http_api := true, sas_token := true, amqp_api := true }

/-- `ToshibaAcDeviceManager.shutdown`: cancels and clears both periodic
task handles and both transport handles (in the `finally` block, so in
all cases); `self.devices` is never cleared. -/
def shutdown (s : ToshibaAcDeviceManager) : ToshibaAcDeviceManager :=
  { s with
    periodic_fetch_energy_consumption_task := false,
    periodic_fetch_device_connection_task := false,
    amqp_api := false, http_api := false }

/-- `ToshibaAcDeviceManager.get_devices`: raises `Not connected` (`none`)
unless both transports are present; then, only when the registry dict is
empty, fetches the fleet listing once, fills the registry from it and
starts the two periodic tasks if not already running; finally returns
the registry values.  `listing` is the device-key list the HTTP API
would return if a fetch were issued now. -/
def get_devices (listing : List String) (s : ToshibaAcDeviceManager) :
    Option (ToshibaAcDeviceManager × List String) :=
  if ¬ (s.http_api ∧ s.amqp_api) then none
  else if s.devices.isEmpty then
    let s2 := { s with
      devices := listing,
      fetch_count := s.fetch_count + 1,
      periodic_fetch_energy_consumption_task := true,
      periodic_fetch_device_connection_task := true }
    some (s2, s2.devices)
  else some (s, s.devices)

end ToshibaAcDeviceManager

/-- The byte-level content of one `merge` step: take the incoming byte
unless it is the sentinel. -/
def mergeByte (x y : Nat) : Nat := if x = 255 then y else x

/-- `ToshibaAcDeviceEnergyConsumption` from
`toshiba_ac/device/properties.py`: a dataclass of a watt-hour value and
the measurement-window start; the handler only compares readings with
`!=` (dataclass field equality), so the two fields are embedded as
integers carrying that equality. -/
structure ToshibaAcDeviceEnergyConsumption where
  energy_wh : Int
  since : Int
deriving DecidableEq

/-! ## Helper lemmas on hex rendering and merging -/

theorem hexOfBytes_cons (v : Nat) (l : List Nat) :
    hexOfBytes (v :: l) = hexDigitChar (v / 16) :: hexDigitChar (v % 16) :: hexOfBytes l := by
  simp [hexOfBytes, hexOfByte]

theorem hexDigitChar_toLower {d : Nat} (h : d < 16) :
    ((hexDigitChar d).toLower = 'f') ↔ d = 15 := by
  interval_cases d <;> decide

theorem hexDigit?_hexDigitChar {d : Nat} (h : d < 16) :
    hexDigit? (hexDigitChar d) = some d := by
  interval_cases d <;> decide

theorem hexPairs?_hexOfBytes : ∀ (l : List Nat), (∀ v ∈ l, v < 256) →
    hexPairs? (hexOfBytes l) = some l
  | [], _ => rfl
  | v :: l, h => by
    have hv : v < 256 := h v (by simp)
    have hl := hexPairs?_hexOfBytes l (fun x hx => h x (by simp [hx]))
    rw [hexOfBytes_cons]
    simp only [hexPairs?]
    rw [hexDigit?_hexDigitChar (by omega), hexDigit?_hexDigitChar (by omega), hl]
    have hvv : v / 16 * 16 + v % 16 = v := by omega
    simp [hvv]

theorem merge_hexOfBytes : ∀ (p b : List Nat), p.length = b.length →
    (∀ v ∈ p, v < 256) →
    ToshibaAcFcuState.merge (hexOfBytes p) (hexOfBytes b)
      = some (hexOfBytes (List.zipWith mergeByte p b))
  | [], [], _, _ => by simp [hexOfBytes, ToshibaAcFcuState.merge]
  | [], _ :: _, h, _ => by simp at h
  | _ :: _, [], h, _ => by simp at h
  | x :: xs, y :: ys, h, hp => by
    have hx : x < 256 := hp x (by simp)
    have hxs : ∀ v ∈ xs, v < 256 := fun v hv => hp v (by simp [hv])
    have hlen : xs.length = ys.length := by simpa using h
    have ihx := merge_hexOfBytes xs ys hlen hxs
    have hcond : ((hexDigitChar (x / 16)).toLower = 'f' ∧
        (hexDigitChar (x % 16)).toLower = 'f') ↔ x = 255 := by
      rw [hexDigitChar_toLower (by omega), hexDigitChar_toLower (by omega)]
      omega
    rw [hexOfBytes_cons, hexOfBytes_cons y, List.zipWith_cons_cons]
    simp only [ToshibaAcFcuState.merge]
    split_ifs with hff
    · have hx255 : x = 255 := hcond.mp hff
      rw [ihx]
      simp [hexOfBytes_cons, mergeByte, hx255]
    · have hx255 : x ≠ 255 := fun hc => hff (hcond.mpr hc)
      simp only [List.drop_succ_cons, List.drop_zero]
      rw [ihx]
      simp [hexOfBytes_cons, mergeByte, hx255]

theorem zipWith_merge_getD : ∀ (p b : List Nat) (i : Nat), p.length = b.length →
    i < p.length →
    (List.zipWith mergeByte p b).getD i 0
      = if p.getD i 0 = 255 then b.getD i 0 else p.getD i 0
  | [], _, i, _, hi => by simp at hi
  | _ :: _, [], _, h, _ => by simp at h
  | x :: xs, y :: ys, 0, _, _ => by simp [mergeByte]
  | x :: xs, y :: ys, n + 1, h, hi => by
    have hlen : xs.length = ys.length := by simpa using h
    have hn : n < xs.length := by simpa using hi
    simpa using zipWith_merge_getD xs ys n hlen hn

theorem zipWith_merge_all_sentinel : ∀ (p b : List Nat), p.length = b.length →
    (∀ v ∈ p, v = 255) → List.zipWith mergeByte p b = b
  | [], [], _, _ => rfl
  | [], _ :: _, h, _ => by simp at h
  | _ :: _, [], h, _ => by simp at h
  | x :: xs, y :: ys, h, hall => by
    have hx : x = 255 := hall x (by simp)
    have hlen : xs.length = ys.length := by simpa using h
    have ihx := zipWith_merge_all_sentinel xs ys hlen (fun v hv => hall v (by simp [hv]))
    simp [mergeByte, hx, ihx]

theorem zipWith_merge_bound : ∀ (p b : List Nat), (∀ v ∈ p, v < 256) →
    (∀ v ∈ b, v < 256) → ∀ v ∈ List.zipWith mergeByte p b, v < 256
  | [], _, _, _ => by simp
  | _ :: _, [], _, _ => by simp
  | x :: xs, y :: ys, hp, hb => by
    intro v hv
    simp only [List.zipWith_cons_cons, List.mem_cons] at hv
    rcases hv with hv | hv
    · subst hv
      unfold mergeByte
      split
      · exact hb y (by simp)
      · exact hp x (by simp)
    · exact zipWith_merge_bound xs ys (fun w hw => hp w (by simp [hw]))
        (fun w hw => hb w (by simp [hw])) v hv

theorem getD_cons_cons_even (c1 c2 : Char) (ps : List Char) (j : Nat) (d : Char) :
    (c1 :: c2 :: ps).getD (2 * (j + 1)) d = ps.getD (2 * j) d := by
  have h : 2 * (j + 1) = 2 * j + 1 + 1 := by omega
  rw [h, List.getD_cons_succ, List.getD_cons_succ]

theorem getD_cons_cons_odd (c1 c2 : Char) (ps : List Char) (j : Nat) (d : Char) :
    (c1 :: c2 :: ps).getD (2 * (j + 1) + 1) d = ps.getD (2 * j + 1) d := by
  have h : 2 * (j + 1) + 1 = 2 * j + 1 + 1 + 1 := by omega
  rw [h, List.getD_cons_succ, List.getD_cons_succ]

theorem merge_length_of_le : ∀ (p b : List Char), p.length ≤ b.length →
    ∃ out, ToshibaAcFcuState.merge p b = some out ∧ out.length = p.length
  | [], _, _ => ⟨[], rfl, rfl⟩
  | [c], _, _ => ⟨[c], rfl, rfl⟩
  | c1 :: c2 :: ps, b, h => by
    rcases b with _ | ⟨d1, _ | ⟨d2, bs⟩⟩
    · exfalso
      simp only [List.length_cons, List.length_nil] at h
      omega
    · exfalso
      simp only [List.length_cons, List.length_nil] at h
      omega
    · have h2 : ps.length ≤ bs.length := by
        simp only [List.length_cons] at h
        omega
      obtain ⟨out, ho, hl⟩ := merge_length_of_le ps bs h2
      simp only [ToshibaAcFcuState.merge]
      split_ifs with hff
      · refine ⟨d1 :: d2 :: out, ?_, by simp [hl]⟩
        rw [ho]
        rfl
      · refine ⟨c1 :: c2 :: out, ?_, by simp [hl]⟩
        simp only [List.drop_succ_cons, List.drop_zero]
        rw [ho]
        rfl

theorem merge_eq_none_iff : ∀ (p b : List Char),
    ToshibaAcFcuState.merge p b = none ↔
      ∃ i, 2 * i + 1 < p.length ∧ (p.getD (2 * i) '0').toLower = 'f' ∧
        (p.getD (2 * i + 1) '0').toLower = 'f' ∧ b.length ≤ 2 * i
  | [], b => by
    constructor
    · intro h
      simp [ToshibaAcFcuState.merge] at h
    · rintro ⟨i, hi, -, -, -⟩
      simp only [List.length_nil] at hi
      omega
  | [c], b => by
    constructor
    · intro h
      simp [ToshibaAcFcuState.merge] at h
    · rintro ⟨i, hi, -, -, -⟩
      simp only [List.length_cons, List.length_nil] at hi
      omega
  | c1 :: c2 :: ps, b => by
    simp only [ToshibaAcFcuState.merge]
    by_cases hff : c1.toLower = 'f' ∧ c2.toLower = 'f'
    · rw [if_pos hff]
      rcases b with _ | ⟨d1, _ | ⟨d2, bs⟩⟩
      · constructor
        · intro _
          refine ⟨0, ?_, ?_, ?_, ?_⟩
          · simp only [List.length_cons]
            omega
          · simpa using hff.1
          · simpa using hff.2
          · simp
        · intro _
          rfl
      · show (ToshibaAcFcuState.merge ps []).map (fun r => d1 :: r) = none ↔ _
        rw [Option.map_eq_none', merge_eq_none_iff ps []]
        constructor
        · rintro ⟨j, hj, hf1, hf2, -⟩
          refine ⟨j + 1, ?_, ?_, ?_, ?_⟩
          · simp only [List.length_cons]
            omega
          · rw [getD_cons_cons_even]
            exact hf1
          · rw [getD_cons_cons_odd]
            exact hf2
          · simp only [List.length_cons, List.length_nil]
            omega
        · rintro ⟨i, hi, hf1, hf2, hb⟩
          simp only [List.length_cons, List.length_nil] at hb
          cases i with
          | zero => omega
          | succ j =>
            refine ⟨j, ?_, ?_, ?_, ?_⟩
            · simp only [List.length_cons] at hi
              omega
            · rw [getD_cons_cons_even] at hf1
              exact hf1
            · rw [getD_cons_cons_odd] at hf2
              exact hf2
            · simp
      · show (ToshibaAcFcuState.merge ps bs).map (fun r => d1 :: d2 :: r) = none ↔ _
        rw [Option.map_eq_none', merge_eq_none_iff ps bs]
        constructor
        · rintro ⟨j, hj, hf1, hf2, hb⟩
          refine ⟨j + 1, ?_, ?_, ?_, ?_⟩
          · simp only [List.length_cons]
            omega
          · rw [getD_cons_cons_even]
            exact hf1
          · rw [getD_cons_cons_odd]
            exact hf2
          · simp only [List.length_cons]
            omega
        · rintro ⟨i, hi, hf1, hf2, hb⟩
          simp only [List.length_cons] at hb
          cases i with
          | zero => omega
          | succ j =>
            refine ⟨j, ?_, ?_, ?_, ?_⟩
            · simp only [List.length_cons] at hi
              omega
            · rw [getD_cons_cons_even] at hf1
              exact hf1
            · rw [getD_cons_cons_odd] at hf2
              exact hf2
            · omega
    · rw [if_neg hff]
      show (ToshibaAcFcuState.merge ps (b.drop 2)).map (fun r => c1 :: c2 :: r) = none ↔ _
      rw [Option.map_eq_none', merge_eq_none_iff ps (b.drop 2)]
      constructor
      · rintro ⟨j, hj, hf1, hf2, hb⟩
        rw [List.length_drop] at hb
        refine ⟨j + 1, ?_, ?_, ?_, ?_⟩
        · simp only [List.length_cons]
          omega
        · rw [getD_cons_cons_even]
          exact hf1
        · rw [getD_cons_cons_odd]
          exact hf2
        · omega
      · rintro ⟨i, hi, hf1, hf2, hb⟩
        cases i with
        | zero =>
          exact absurd ⟨by simpa using hf1, by simpa using hf2⟩ hff
        | succ j =>
          refine ⟨j, ?_, ?_, ?_, ?_⟩
          · simp only [List.length_cons] at hi
            omega
          · rw [getD_cons_cons_even] at hf1
            exact hf1
          · rw [getD_cons_cons_odd] at hf2
            exact hf2
          · rw [List.length_drop]
            omega

/-- Decoding the canonical hex rendering of 36 byte values succeeds and
assigns the typed fields from their fixed offsets. -/
theorem decode_hexOfBytes_ok (s : ToshibaAcFcuState) (bs : List Nat)
    (hv : ∀ v ∈ bs, v < 256) (hlen : bs.length = 36) :
    ToshibaAcFcuState.decode s (hexOfBytes bs)
      = ToshibaAcFcuState.DecodeResult.ok
          { s with
            _status_string := hexOfBytes bs
            _dhw_is_enabled := bs.getD 0 0
            _dhw_target_temperature := bs.getD 1 0
            _new_outdoor_unit_dhw := bs.getD 2 0
            _new_heating_coil_dhw := bs.getD 3 0
            _new_heating_active := bs.getD 4 0
            _water_operation_mode := bs.getD 5 0
            _zone1_target_temperature := bs.getD 6 0
            _outdoor_unit_heat := bs.getD 8 0
            _heating_coil_heat := bs.getD 9 0
            _ac_outdoor_temperature := bs.getD 10 0
            _water_pump_status := bs.getD 19 0 } := by
  unfold ToshibaAcFcuState.decode ToshibaAcFcuState.unpack36
  rw [hexPairs?_hexOfBytes bs hv]
  simp [hlen]

/-! ## Claim theorems -/

/-- C1: for a previous full blob `B` and a partial blob `P`, both of 36
bytes (72 hex characters), `merge(P, B)` — in the argument order `update`
uses — returns the blob whose i-th byte is `P[i]` when `P[i] ≠ 0xFF` and
`B[i]` when `P[i] = 0xFF`; an all-`0xFF` partial returns `B` unchanged,
and `update` stores exactly that merged blob and reports a change. -/
theorem C1_merge_via_update (p b : List Nat)
    (hp : p.length = 36) (hb : b.length = 36)
    (hpv : ∀ v ∈ p, v < 256) (hbv : ∀ v ∈ b, v < 256) :
    ∃ out : List Nat,
      ToshibaAcFcuState.merge (hexOfBytes p) (hexOfBytes b) = some (hexOfBytes out) ∧
      out.length = 36 ∧
      (∀ i : Fin 36, out.getD i 0 = if p.getD i 0 = 255 then b.getD i 0 else p.getD i 0) ∧
      ((∀ v ∈ p, v = 255) → out = b) ∧
      (∀ s : ToshibaAcFcuState, s._status_string = hexOfBytes b →
        ∃ s2, ToshibaAcFcuState.update s (hexOfBytes p) = some (s2, true) ∧
          s2._status_string = hexOfBytes out) := by
  refine ⟨List.zipWith mergeByte p b, merge_hexOfBytes p b (by omega) hpv, ?_, ?_, ?_, ?_⟩
  · rw [List.length_zipWith]
    omega
  · intro i
    have := zipWith_merge_getD p b i.val (by omega) (by omega)
    simpa [mergeByte] using this
  · intro hall
    exact zipWith_merge_all_sentinel p b (by omega) hall
  · intro s hs
    unfold ToshibaAcFcuState.update
    rw [hs]
    simp only [merge_hexOfBytes p b (by omega) hpv,
      decode_hexOfBytes_ok s (List.zipWith mergeByte p b)
        (zipWith_merge_bound p b hpv hbv) (by rw [List.length_zipWith]; omega)]
    exact ⟨_, rfl, rfl⟩

/-- C1 witness: merging an all-`0xFF` partial into the 36-byte blob
`00 01 ... 23` returns that blob unchanged. -/
theorem C1_witness :
    ToshibaAcFcuState.merge (hexOfBytes (List.replicate 36 255)) (hexOfBytes (List.range 36))
      = some (hexOfBytes (List.range 36)) := by
  obtain ⟨out, hm, -, -, hall, -⟩ :=
    C1_merge_via_update (List.replicate 36 255) (List.range 36)
      (by decide) (by decide) (by decide) (by decide)
  rw [hall (by decide)] at hm
  exact hm

/-- C2: the code cannot satisfy the claim — `encode` returns the empty
string for every state, and decoding that empty string raises a struct
error (0 bytes instead of 36) rather than restoring any field, so
decoding is not a left inverse of encoding. -/
theorem C2_encode_not_inverted (s t : ToshibaAcFcuState) :
    ToshibaAcFcuState.encode s = [] ∧
    ToshibaAcFcuState.decode t (ToshibaAcFcuState.encode s)
      = ToshibaAcFcuState.DecodeResult.err { t with _status_string := [] } := by
  constructor
  · rfl
  · rfl

/-- C3 counterexample: the partial blob `"00"` and the previous blob
`"0102"` differ in length, yet `merge` does not reject them — it returns
the truncated blob `"00"` without an error. -/
theorem C3_cex :
    "00".toList.length ≠ "0102".toList.length ∧
    ToshibaAcFcuState.merge "00".toList "0102".toList = some "00".toList := by
  decide

/-- C3 amended: `merge` does not reject blobs of differing lengths as
such — a partial no longer than the previous blob always merges, into a
blob of the partial's length (a shorter partial silently truncates); in
general `merge` fails exactly when the partial contains a full
two-character sentinel `ff` chunk (case-insensitive) at a chunk position
the previous blob does not have, the embedded IndexError; every other
pair, length mismatch or not, merges successfully. -/
theorem C3_amended (p b : List Char) :
    (p.length ≤ b.length →
      ∃ out, ToshibaAcFcuState.merge p b = some out ∧ out.length = p.length) ∧
    (ToshibaAcFcuState.merge p b = none ↔
      ∃ i, 2 * i + 1 < p.length ∧ (p.getD (2 * i) '0').toLower = 'f' ∧
        (p.getD (2 * i + 1) '0').toLower = 'f' ∧ b.length ≤ 2 * i) :=
  ⟨merge_length_of_le p b, merge_eq_none_iff p b⟩

/-- C3 amended witness: the shorter partial `"00"` merges into `"0102"`
without error and keeps its own length, while `"0000ff"` against `"01"`
fails through its out-of-range sentinel chunk at index 2. -/
theorem C3_amended_witness :
    (ToshibaAcFcuState.merge "00".toList "0102".toList).isSome = true ∧
    ToshibaAcFcuState.merge "0000ff".toList "01".toList = none := by
  constructor
  · obtain ⟨out, ho, -⟩ := (C3_amended "00".toList "0102".toList).1 (by decide)
    rw [ho]
    rfl
  · exact (C3_amended "0000ff".toList "01".toList).2.mpr
      ⟨2, by decide, by decide, by decide, by decide⟩

/-- C4 counterexample: the enum decoders are partial dict lookups —
`EstiaWaterMode.from_raw` raises `KeyError` even on the 0xFF sentinel,
and `AcStatus.from_raw` / `AcMode.from_raw` raise on undefined bytes
instead of returning the NONE variant. -/
theorem C4_cex :
    ToshibaAcFcuState.EstiaWaterMode.from_raw 0xFF = none ∧
    ToshibaAcFcuState.AcStatus.from_raw 0x00 = none ∧
    ToshibaAcFcuState.AcMode.from_raw 0x01 = none := by
  decide

set_option maxRecDepth 4000 in
/-- C4 amended: each defined raw value maps to exactly one variant and
`from_raw ∘ to_raw` restores every `AcStatus` and `AcMode` variant, but
the decoders are defined only on their table keys: every other raw byte
raises `KeyError` instead of mapping to NONE, and for `EstiaWaterMode`
that includes the 0xFF sentinel. -/
theorem C4_amended :
    (∀ v : ToshibaAcStatus,
      ToshibaAcFcuState.AcStatus.from_raw (ToshibaAcFcuState.AcStatus.to_raw v) = some v) ∧
    (∀ v : ToshibaAcMode,
      ToshibaAcFcuState.AcMode.from_raw (ToshibaAcFcuState.AcMode.to_raw v) = some v) ∧
    (∀ r : Fin 256, (ToshibaAcFcuState.AcStatus.from_raw r.val).isSome = true ↔
      (r.val = 0x30 ∨ r.val = 0x31 ∨ r.val = 0x02 ∨ r.val = 0xFF)) ∧
    (∀ r : Fin 256, (ToshibaAcFcuState.AcMode.from_raw r.val).isSome = true ↔
      (r.val = 0x41 ∨ r.val = 0x42 ∨ r.val = 0x43 ∨ r.val = 0x00 ∨ r.val = 0xFF)) ∧
    (∀ r : Fin 256, (ToshibaAcFcuState.EstiaWaterMode.from_raw r.val).isSome = true ↔
      (r.val = 0x05 ∨ r.val = 0x06 ∨ r.val = 0x00)) := by
  decide

/-- C5 counterexample: decoding the 36-byte blob that is 0xFF everywhere
except a byte holding the raw "on" value 0x30 succeeds but yields
`ac_status = NONE`, not ON — `decode` never assigns the `_ac_status`
field. -/
theorem C5_cex :
    (ToshibaAcFcuState.decode ToshibaAcFcuState.init
        (hexOfBytes ((List.replicate 36 255).set 0 0x30))).isOk = true ∧
    (ToshibaAcFcuState.decode ToshibaAcFcuState.init
        (hexOfBytes ((List.replicate 36 255).set 0 0x30))).state.ac_status
      = some ToshibaAcStatus.NONE := by
  decide

/-- C5 amended: wherever the 0x30 byte is placed in the otherwise
all-0xFF blob, decoding succeeds but leaves `ac_status` at NONE (the
decoder never populates the status field), and the populated fields take
the raw 0xFF bytes at face value: `compressor_status` is DHW and the
water-mode accessor raises `KeyError` instead of reading as absent. -/
theorem C5_amended : ∀ i : Fin 36,
    (ToshibaAcFcuState.decode ToshibaAcFcuState.init
        (hexOfBytes ((List.replicate 36 255).set i 0x30))).isOk = true ∧
    (ToshibaAcFcuState.decode ToshibaAcFcuState.init
        (hexOfBytes ((List.replicate 36 255).set i 0x30))).state.ac_status
      = some ToshibaAcStatus.NONE ∧
    (ToshibaAcFcuState.decode ToshibaAcFcuState.init
        (hexOfBytes ((List.replicate 36 255).set i 0x30))).state.compressor_status
      = EstiaCompressorStatus.DHW ∧
    (ToshibaAcFcuState.decode ToshibaAcFcuState.init
        (hexOfBytes ((List.replicate 36 255).set i 0x30))).state.zone1_mode
      = none := by
  decide

/-- C9: decoding an input that is not valid hex or does not give exactly
36 bytes raises, and the state it leaves behind differs from the previous
one exactly in `_status_string`, which was already replaced by the
invalid input before the failure. -/
theorem C9_decode_partial_frame (s : ToshibaAcFcuState) (hex : List Char)
    (h : ToshibaAcFcuState.unpack36 hex = none) :
    ToshibaAcFcuState.decode s hex
      = ToshibaAcFcuState.DecodeResult.err { s with _status_string := hex } := by
  unfold ToshibaAcFcuState.decode
  rw [h]

/-- C9 witness: decoding the non-hex input `"zz"` from the freshly
constructed state fails and replaces only the stored raw string. -/
theorem C9_witness :
    ToshibaAcFcuState.decode ToshibaAcFcuState.init "zz".toList
      = ToshibaAcFcuState.DecodeResult.err
          { ToshibaAcFcuState.init with _status_string := "zz".toList } :=
  C9_decode_partial_frame ToshibaAcFcuState.init "zz".toList (by decide)

/-- C10: `compressor_status` is total and prioritized — DHW when the
outdoor-unit-DHW flag byte is nonzero, else HEAT when the
outdoor-unit-heat flag byte is nonzero, else OFF; it never returns the
NONE variant its `Optional` type admits. -/
theorem C10_compressor_total (s : ToshibaAcFcuState) :
    (s._new_outdoor_unit_dhw ≠ 0 →
      s.compressor_status = EstiaCompressorStatus.DHW) ∧
    (s._new_outdoor_unit_dhw = 0 → s._outdoor_unit_heat ≠ 0 →
      s.compressor_status = EstiaCompressorStatus.HEAT) ∧
    (s._new_outdoor_unit_dhw = 0 → s._outdoor_unit_heat = 0 →
      s.compressor_status = EstiaCompressorStatus.OFF) ∧
    s.compressor_status ≠ EstiaCompressorStatus.NONE := by
  unfold ToshibaAcFcuState.compressor_status
  refine ⟨?_, ?_, ?_, ?_⟩ <;> intros <;> split_ifs <;> simp_all

/-- C10 witness: with the outdoor-unit-DHW flag set on the initial
state, the derived compressor status is DHW. -/
theorem C10_witness :
    ({ ToshibaAcFcuState.init with _new_outdoor_unit_dhw := 1 }
        : ToshibaAcFcuState).compressor_status = EstiaCompressorStatus.DHW :=
  (C10_compressor_total
    { ToshibaAcFcuState.init with _new_outdoor_unit_dhw := 1 }).1 (by decide)

/-- C6 counterexample: a heartbeat payload whose THO field fails to parse
but whose TO, TWI, TWO and FLO fields are all parseable makes the handler
store only TFI and drop every later field — the fields are not parsed
independently — though state-changed is still emitted. -/
theorem C6_cex :
    ToshibaAcDevice.handle_cmd_heartbeat_estia
        { temperatures := { tfi := 100, tho := 101, «to» := 102, twi := 103, two := 104 }, _water_flow_rate := 105 }
        { tfi_temp := some 1, tho_temp := none, to_temp := some 2, twi_temp := some 3, two_temp := some 4, flo := some 5 }
      = ({ temperatures := { tfi := 1, tho := 101, «to» := 102, twi := 103, two := 104 }, _water_flow_rate := 105 }, true) := by
  decide

/-- C6 amended: the heartbeat handler parses the fields inside one try
block in the order TFI, THO, TO, TWI, TWO, FLO; at every one of the six
positions, the first failing field aborts that field and all later ones
while earlier fields keep their newly stored values, the failure is
logged and swallowed, and a state-changed notification is emitted in
every case (including the all-parseable case, which stores all six). -/
theorem C6_heartbeat_first_failure (d : ToshibaAcDevice) (p : HbPayload)
    (v1 v2 v3 v4 v5 v6 : Nat) :
    (ToshibaAcDevice.handle_cmd_heartbeat_estia d p).2 = true ∧
    (p.tfi_temp = none →
      ToshibaAcDevice.handle_cmd_heartbeat_estia d p = (d, true)) ∧
    (p.tfi_temp = some v1 → p.tho_temp = none →
      ToshibaAcDevice.handle_cmd_heartbeat_estia d p
        = ({ d with temperatures := { d.temperatures with tfi := v1 } }, true)) ∧
    (p.tfi_temp = some v1 → p.tho_temp = some v2 → p.to_temp = none →
      ToshibaAcDevice.handle_cmd_heartbeat_estia d p
        = ({ d with temperatures := { d.temperatures with tfi := v1, tho := v2 } },
            true)) ∧
    (p.tfi_temp = some v1 → p.tho_temp = some v2 → p.to_temp = some v3 →
      p.twi_temp = none →
      ToshibaAcDevice.handle_cmd_heartbeat_estia d p
        = ({ d with temperatures :=
              { d.temperatures with tfi := v1, tho := v2, «to» := v3 } }, true)) ∧
    (p.tfi_temp = some v1 → p.tho_temp = some v2 → p.to_temp = some v3 →
      p.twi_temp = some v4 → p.two_temp = none →
      ToshibaAcDevice.handle_cmd_heartbeat_estia d p
        = ({ d with temperatures :=
              { d.temperatures with tfi := v1, tho := v2, «to» := v3, twi := v4 } },
            true)) ∧
    (p.tfi_temp = some v1 → p.tho_temp = some v2 → p.to_temp = some v3 →
      p.twi_temp = some v4 → p.two_temp = some v5 → p.flo = none →
      ToshibaAcDevice.handle_cmd_heartbeat_estia d p
        = ({ d with temperatures :=
              { d.temperatures with tfi := v1, tho := v2, «to» := v3, twi := v4, two := v5 } },
            true)) ∧
    (p.tfi_temp = some v1 → p.tho_temp = some v2 → p.to_temp = some v3 →
      p.twi_temp = some v4 → p.two_temp = some v5 → p.flo = some v6 →
      ToshibaAcDevice.handle_cmd_heartbeat_estia d p
        = ({ d with
            temperatures :=
              { d.temperatures with tfi := v1, tho := v2, «to» := v3, twi := v4, two := v5 }
            _water_flow_rate := v6 }, true)) := by
  refine ⟨rfl, ?_, ?_, ?_, ?_, ?_, ?_, ?_⟩
  · intro h1
    simp only [ToshibaAcDevice.handle_cmd_heartbeat_estia, h1]
  · intro h1 h2
    simp only [ToshibaAcDevice.handle_cmd_heartbeat_estia, h1, h2]
  · intro h1 h2 h3
    simp only [ToshibaAcDevice.handle_cmd_heartbeat_estia, h1, h2, h3]
  · intro h1 h2 h3 h4
    simp only [ToshibaAcDevice.handle_cmd_heartbeat_estia, h1, h2, h3, h4]
  · intro h1 h2 h3 h4 h5
    simp only [ToshibaAcDevice.handle_cmd_heartbeat_estia, h1, h2, h3, h4, h5]
  · intro h1 h2 h3 h4 h5 h6
    simp only [ToshibaAcDevice.handle_cmd_heartbeat_estia, h1, h2, h3, h4, h5, h6]
  · intro h1 h2 h3 h4 h5 h6
    simp only [ToshibaAcDevice.handle_cmd_heartbeat_estia, h1, h2, h3, h4, h5, h6]

/-- C6 amended witness: a payload whose TFI parses to 7 and whose THO
fails updates only TFI and still reports the change. -/
theorem C6_witness :
    ToshibaAcDevice.handle_cmd_heartbeat_estia
        { temperatures := { tfi := 100, tho := 101, «to» := 102, twi := 103, two := 104 }, _water_flow_rate := 105 }
        { tfi_temp := some 7, tho_temp := none, to_temp := none, twi_temp := none, two_temp := none, flo := none }
      = ({ temperatures := { tfi := 7, tho := 101, «to» := 102, twi := 103, two := 104 }, _water_flow_rate := 105 }, true) :=
  (C6_heartbeat_first_failure
    { temperatures := { tfi := 100, tho := 101, «to» := 102, twi := 103, two := 104 }, _water_flow_rate := 105 }
    { tfi_temp := some 7, tho_temp := none, to_temp := none, twi_temp := none, two_temp := none, flo := none }
    7 0 0 0 0 0).2.2.1 rfl rfl

/-- C7: the energy-changed notification fires exactly when the new
reading differs from the cached one (initially `None`); two consecutive
calls with the same reading fire exactly once, leaving that reading
cached. -/
theorem C7_energy_change_detection
    (cache : Option ToshibaAcDeviceEnergyConsumption)
    (v : ToshibaAcDeviceEnergyConsumption) :
    ((ToshibaAcDevice.handle_update_ac_energy_consumption cache v).2 = true ↔
      cache ≠ some v) ∧
    (cache ≠ some v →
      ToshibaAcDevice.runEnergyUpdates cache [v, v] = (some v, 1)) := by
  constructor
  · unfold ToshibaAcDevice.handle_update_ac_energy_consumption
    split_ifs with h <;> simp [h]
  · intro h
    simp [ToshibaAcDevice.runEnergyUpdates,
      ToshibaAcDevice.handle_update_ac_energy_consumption, h]

/-- C7 witness: from the empty cache, pushing the same 1500 Wh reading
twice fires exactly one notification and caches the reading. -/
theorem C7_witness :
    ToshibaAcDevice.runEnergyUpdates (none : Option ToshibaAcDeviceEnergyConsumption)
        [⟨1500, 10⟩, ⟨1500, 10⟩] = (some ⟨1500, 10⟩, 1) :=
  (C7_energy_change_detection none ⟨1500, 10⟩).2 (by decide)

/-- C8 counterexample: the first `get_devices` after connecting fetches
the listing once and populates the registry, but a `shutdown` followed by
a fresh `connect` does not allow repopulation — the next `get_devices`
returns the old registry with no new listing fetch, because `shutdown`
clears transports and tasks but never the device map. -/
theorem C8_cex :
    ToshibaAcDeviceManager.get_devices ["d1"]
        (ToshibaAcDeviceManager.connect ToshibaAcDeviceManager.mgrInit)
      = some (⟨true, true, true, ["d1"], true, true, 1⟩, ["d1"]) ∧
    ToshibaAcDeviceManager.get_devices ["d2"]
        (ToshibaAcDeviceManager.connect
          (ToshibaAcDeviceManager.shutdown ⟨true, true, true, ["d1"], true, true, 1⟩))
      = some (⟨true, true, true, ["d1"], false, false, 1⟩, ["d1"]) := by
  decide

/-- C8 amended: within one connected session the first `get_devices`
issues exactly one listing fetch and populates the registry, and every
later call returns the cached list without fetching; a shutdown followed
by a fresh connect does not repopulate — the registry survives both, so
the next `get_devices` still returns the stale cached list with no new
fetch. -/
theorem C8_get_devices_cached (s : ToshibaAcDeviceManager)
    (listing l2 l3 : List String)
    (hconn : s.http_api = true) (hamqp : s.amqp_api = true)
    (hempty : s.devices = []) (hl : listing ≠ []) :
    ∃ s1 : ToshibaAcDeviceManager,
      ToshibaAcDeviceManager.get_devices listing s = some (s1, listing) ∧
      s1.devices = listing ∧
      s1.fetch_count = s.fetch_count + 1 ∧
      ToshibaAcDeviceManager.get_devices l2 s1 = some (s1, listing) ∧
      ToshibaAcDeviceManager.get_devices l3
          (ToshibaAcDeviceManager.connect (ToshibaAcDeviceManager.shutdown s1))
        = some (ToshibaAcDeviceManager.connect (ToshibaAcDeviceManager.shutdown s1),
            listing) ∧
      (ToshibaAcDeviceManager.connect (ToshibaAcDeviceManager.shutdown s1)).fetch_count
        = s.fetch_count + 1 := by
  refine ⟨{ s with
    devices := listing
    fetch_count := s.fetch_count + 1
    periodic_fetch_energy_consumption_task := true
    periodic_fetch_device_connection_task := true }, ?_, rfl, rfl, ?_, ?_, rfl⟩
  · simp [ToshibaAcDeviceManager.get_devices, hconn, hamqp, hempty]
  · simp [ToshibaAcDeviceManager.get_devices, hconn, hamqp, List.isEmpty_iff, hl]
  · simp [ToshibaAcDeviceManager.get_devices, ToshibaAcDeviceManager.connect,
      ToshibaAcDeviceManager.shutdown, List.isEmpty_iff, hl]

/-- C8 witness: the freshly connected manager serves its first
`get_devices` from a listing fetch. -/
theorem C8_witness :
    (ToshibaAcDeviceManager.get_devices ["d1"]
        (ToshibaAcDeviceManager.connect ToshibaAcDeviceManager.mgrInit)).isSome = true := by
  obtain ⟨s1, h1, -, -, -, -, -⟩ :=
    C8_get_devices_cached (ToshibaAcDeviceManager.connect ToshibaAcDeviceManager.mgrInit)
      ["d1"] ["d1"] ["d2"] rfl rfl rfl (by decide)
  rw [h1]
  rfl
